import Mathlib

/-! Shallow embedding of the pool viewer client (`src/scripts/viewer.py`).

The file models the session/connection state machine of `Viewer.update`, the
messenger events it sends, the pause semantics of the three trigger handlers
(`on_game_over`, `update_score`, `animate_shot`), and a driver that iterates
ticks the way Panda3D's task manager does (`task.again` re-schedules the tick,
`task.done` removes it, an uncaught exception also stops it).

The module `modules/msgutil` is not part of the sources; its data carriers
(message variants, shot info, the socket-backed message buffer) are modelled
from the spec where needed, as noted on each definition.  Simulation-clock
values (Python floats such as `5.0` and `1.5`) are modelled as rationals. -/

/-- Modelled from the spec: the connection kind carried in a `Login` message.
`modules/msgutil` is absent from the sources; the spec says the kind is an
enumeration and that this client always sends the viewer kind. -/
inductive ConnectionType
  | VIEWER
  deriving DecidableEq, Repr

/-- Modelled from the spec: a simulation-state snapshot (`pt.System`), opaque
to the core except for the embedded simulation clock value `t` read by
`Viewer.update` (`self.system.t`).  `data` stands in for the opaque rest of
the snapshot so that distinct snapshots are distinguishable. -/
structure PSystem where
  t : Rat
  data : Nat
  deriving DecidableEq, Repr

/-- Modelled from the spec: shot metadata `{active-player name, game-over
boolean, optional winner name}`.  The source reads `shot_info.player.name`,
`shot_info.game_over` and `shot_info.winner.name`; the two `.name` fields are
modelled directly as the player and winner names, the winner being optional
(`None` in Python, whose `.name` access raises an attribute error). -/
structure ShotInfo where
  player : String
  game_over : Bool
  winner : Option String
  deriving DecidableEq, Repr

/-- Modelled from the spec: the closed set of wire message variants of
`modules/msgutil`.  Secrets (128-bit identifiers) are modelled as naturals;
`scores` is an insertion-ordered name-to-integer mapping, modelled as an
association list. -/
inductive Message
  | Login (name : String) (secret : Option Nat) (conn_type : ConnectionType)
  | LoginSuccess (secret : Nat)
  | LoginFailed (reason : String)
  | ConnectionClosed
  | Broadcast (system : PSystem) (shot_info : ShotInfo) (scores : List (String × Int))
  deriving DecidableEq, Repr

/-- The events `Viewer.update` sends through the Panda3D messenger, with the
arguments the source passes (`messenger.send('game_over', [winner, wait])`,
`messenger.send('update_score', [scores, wait])`,
`messenger.send('animate_shot')`). -/
inductive MessengerEvent
  | game_over (winner : String) (wait : Rat)
  | update_score (scores : List (String × Int)) (wait : Rat)
  | animate_shot
  deriving DecidableEq, Repr

/-- The delay, from registration of the event, after which the corresponding
handler performs its visible effect: `on_game_over` and `update_score` first
run `Task.pause(wait)` with the wait passed in the event, and `animate_shot`
runs `Task.pause(1.5)`. -/
def eventDelay : MessengerEvent → Rat
  | MessengerEvent.game_over _ wait => wait
  | MessengerEvent.update_score _ wait => wait
  | MessengerEvent.animate_shot => (3 : Rat) / 2

/-- The observable actions one tick of `Viewer.update` performs: log lines,
messages enqueued on the outgoing buffer (`buffer.push_msg`), and messenger
events (trigger registrations).  Pure rendering calls on the external scene
controller are out of scope per the spec and are not recorded. -/
inductive Act
  | logInfo (text : String)
  | logWarning (text : String)
  | pushMsg (m : Message)
  | send (e : MessengerEvent)
  deriving DecidableEq, Repr

/-- The value held in the `self.state` field.  `ViewerState` in the source is
an enumeration with exactly the three members below; `Other` represents any
value outside the enumeration (Python would allow the field to be assigned
one), which the dispatch in `Viewer.update` answers by raising
`NotImplementedError`. -/
inductive StateVal
  | WaitingForConnection
  | ConnectionPending
  | Viewing
  | Other (v : Nat)
  deriving DecidableEq, Repr

/-- The session-relevant fields of the `Viewer` object: the state value, the
configured user name and optional pre-shared secret, the currently retained
snapshot, the turn-indicator text, whether `setblocking(False)` has been
called on the socket, and whether the message buffer has been constructed. -/
structure Viewer where
  state : StateVal
  name : String
  secret : Option Nat
  system : PSystem
  turn_indicator : String
  sockNonblocking : Bool
  hasBuffer : Bool
  deriving DecidableEq, Repr

/-- The Python exceptions the modelled code can raise: `NotImplementedError`
on an unrecognized state value, `AttributeError` from `shot_info.winner.name`
when the winner is absent, and `IndexError` from list indexing in
`update_score`. -/
inductive PyError
  | notImplementedUnknownState
  | attributeErrorWinnerNone
  | indexError
  deriving DecidableEq, Repr

/-- The value a Panda3D task returns: `task.again` re-schedules the tick,
`task.done` removes it from the task manager. -/
inductive TaskResult
  | again
  | done
  deriving DecidableEq, Repr

/-- Whether the task result stops the tick loop. -/
def TaskResult.isDone : TaskResult → Bool
  | TaskResult.done => true
  | TaskResult.again => false

/-- The environment's contribution to one tick: whether `sock.connect` would
succeed this tick (raising `ConnectionRefusedError` otherwise), and the
message `buffer.pop_msg()` would return after `buffer.update()` (`none` when
no complete message is available). -/
structure TickInput where
  connectOk : Bool
  msg : Option Message
  deriving DecidableEq, Repr

/-- One tick of `Viewer.update`, faithful to the source dispatch:

in `WaitingForConnection` it attempts `sock.connect`; on refusal it does
nothing (silent retry next tick), on success it switches the socket to
non-blocking, constructs the buffer, pushes one `Login` with the configured
name, secret and the viewer kind, and moves to `ConnectionPending`;

in `ConnectionPending` it handles `ConnectionClosed` (log, `task.done`),
`LoginSuccess` (log the secret, move to `Viewing`), `LoginFailed` (log,
`task.done`), any other message (warn) and no message (nothing);

in `Viewing` it handles `ConnectionClosed` (log, `task.done`), `Broadcast`
(first discard the old snapshot, set the turn indicator from the active
player and adopt the new snapshot — source lines 125 to 127 — and only then,
when the game-over flag is set, read `winner.name`, an attribute error when
the winner is absent, raised after those mutations; otherwise send
`game_over` when flagged, then `update_score` and `animate_shot`), any other
message (warn) and no message (nothing);

any other state value raises `NotImplementedError`.

A raising tick returns `Except.error (v', e)` where `v'` is the viewer with
every mutation performed before the raise point — in Python the mutated
fields of `self` persist while the exception propagates out of the task. -/
def Viewer.update (v : Viewer) (input : TickInput) :
    Except (Viewer × PyError) (Viewer × List Act × TaskResult) :=
  match v.state with
  | StateVal.WaitingForConnection =>
    if input.connectOk then
      Except.ok
        ({ v with sockNonblocking := true, hasBuffer := true,
                  state := StateVal.ConnectionPending },
         [Act.pushMsg (Message.Login v.name v.secret ConnectionType.VIEWER)],
         TaskResult.again)
    else
      Except.ok (v, [], TaskResult.again)
  | StateVal.ConnectionPending =>
    match input.msg with
    | none => Except.ok (v, [], TaskResult.again)
    | some m =>
      match m with
      | Message.ConnectionClosed =>
          Except.ok (v, [Act.logInfo "Server disconnected!"], TaskResult.done)
      | Message.LoginSuccess s =>
          Except.ok ({ v with state := StateVal.Viewing },
            [Act.logInfo ("Connected! Secret: " ++ toString s)], TaskResult.again)
      | Message.LoginFailed reason =>
          Except.ok (v, [Act.logInfo ("Failed to connect! " ++ reason)], TaskResult.done)
      | _ => Except.ok (v, [Act.logWarning "Unexpected message!"], TaskResult.again)
  | StateVal.Viewing =>
    match input.msg with
    | none => Except.ok (v, [], TaskResult.again)
    | some m =>
      match m with
      | Message.ConnectionClosed =>
          Except.ok (v, [Act.logInfo "Server disconnected!"], TaskResult.done)
      | Message.Broadcast system shot_info scores =>
          let v2 := { v with system := system,
                             turn_indicator := "Active player: " ++ shot_info.player.toUpper }
          if shot_info.game_over then
            match shot_info.winner with
            | none => Except.error (v2, PyError.attributeErrorWinnerNone)
            | some w =>
                Except.ok
                  (v2,
                   [Act.send (MessengerEvent.game_over w system.t),
                    Act.send (MessengerEvent.update_score scores system.t),
                    Act.send MessengerEvent.animate_shot],
                   TaskResult.again)
          else
            Except.ok
              (v2,
               [Act.send (MessengerEvent.update_score scores system.t),
                Act.send MessengerEvent.animate_shot],
               TaskResult.again)
      | _ => Except.ok (v, [Act.logWarning "Unexpected message!"], TaskResult.again)
  | StateVal.Other _ => Except.error (v, PyError.notImplementedUnknownState)

/-- The `update_score` trigger handler: after `Task.pause(wait)` (the pause is
accounted by `eventDelay`) it reads `list(scores.keys())` and
`list(scores.values())` and formats entries at indices 0 and 1 into the score
display text; indexing outside the list raises `IndexError`. -/
def Viewer.update_score (scores : List (String × Int)) (wait : Rat) :
    Except PyError String :=
  let player_names := scores.map Prod.fst
  let player_scores := scores.map Prod.snd
  match player_names[0]?, player_scores[0]?, player_names[1]?, player_scores[1]? with
  | some n0, some s0, some n1, some s1 =>
      Except.ok (n0.toUpper ++ ": " ++ toString s0 ++ " vs. " ++ n1.toUpper ++ ": " ++ toString s1)
  | _, _, _, _ => Except.error PyError.indexError

/-- The viewer as `Viewer.__init__` leaves it: waiting for connection, socket
still in its default blocking mode, no message buffer yet, name and optional
secret from the command line, the locally built initial snapshot, empty
on-screen texts. -/
def initialViewer (name : String) (secret : Option Nat) : Viewer :=
  { state := StateVal.WaitingForConnection, name := name, secret := secret,
    system := { t := 0, data := 0 }, turn_indicator := "",
    sockNonblocking := false, hasBuffer := false }

/-- The driving loop's view of the session: the viewer object, whether the
tick task has been removed (`task.done` was returned — the spec's implicit
terminal `Closed` state), whether an uncaught exception escaped the tick, and
the accumulated trace of observable actions. -/
structure RunState where
  viewer : Viewer
  closed : Bool
  crashed : Option PyError
  trace : List Act
  deriving DecidableEq, Repr

/-- A fresh run of the tick loop on a viewer. -/
def initRun (v : Viewer) : RunState :=
  { viewer := v, closed := false, crashed := none, trace := [] }

/-- One scheduler step: if the task was removed (`task.done`) or crashed, the
tick no longer runs and nothing changes; otherwise run `Viewer.update`,
append its actions to the trace, and record `task.done` or the exception.
On an exception the viewer keeps the mutations the tick made before the
raise point (the error payload), as the Python object would. -/
def stepRun (rs : RunState) (i : TickInput) : RunState :=
  if rs.closed || rs.crashed.isSome then rs
  else
    match rs.viewer.update i with
    | Except.ok (v', acts, r) =>
        { viewer := v', closed := r.isDone, crashed := rs.crashed,
          trace := rs.trace ++ acts }
    | Except.error (v', e) =>
        { viewer := v', closed := rs.closed, crashed := some e,
          trace := rs.trace }

/-- Iterate the tick loop over a list of per-tick environment inputs. -/
def runTicks (rs : RunState) : List TickInput → RunState
  | [] => rs
  | i :: is => runTicks (stepRun rs i) is

/-- Whether an action is an enqueue on the outgoing buffer. -/
def isPush : Act → Bool
  | Act.pushMsg _ => true
  | _ => false

/-- The outgoing-enqueue actions of a trace, in order. -/
def pushesOf (tr : List Act) : List Act :=
  tr.filter isPush

/-- Whether a state value is one of the three enumerated `ViewerState`
members. -/
def knownState : StateVal → Bool
  | StateVal.Other _ => false
  | _ => true

/-- The fire delays (from registration) of the messenger events in an action
list, in registration order. -/
def sendDelays (a : List Act) : List Rat :=
  a.filterMap fun x =>
    match x with
    | Act.send e => some (eventDelay e)
    | _ => none

/-- Message variants the `ConnectionPending` dispatch does not enumerate
(handled by its catch-all warning arm). -/
def unexpectedInPending : Message → Bool
  | Message.Login _ _ _ => true
  | Message.Broadcast _ _ _ => true
  | _ => false

/-- Message variants the `Viewing` dispatch does not enumerate (handled by
its catch-all warning arm). -/
def unexpectedInViewing : Message → Bool
  | Message.Login _ _ _ => true
  | Message.LoginSuccess _ => true
  | Message.LoginFailed _ => true
  | _ => false

/-- The snapshot of spec scenario C: simulation clock `t = 5.0`. -/
def scenarioSystem : PSystem := { t := 5, data := 7 }

/-- The shot info of spec scenario C: active player bob, game over, winner
bob. -/
def scenarioShotInfo : ShotInfo :=
  { player := "bob", game_over := true, winner := some "bob" }

/-- The scores of spec scenario C, in insertion order. -/
def scenarioScores : List (String × Int) := [("alice", 2), ("bob", 5)]

/-- The broadcast of spec scenario C. -/
def scenarioBroadcast : Message :=
  Message.Broadcast scenarioSystem scenarioShotInfo scenarioScores

/-- A viewer sitting in `Viewing` (scenario C's starting point). -/
def viewingViewer : Viewer :=
  { state := StateVal.Viewing, name := "alice", secret := none,
    system := { t := 0, data := 0 }, turn_indicator := "",
    sockNonblocking := true, hasBuffer := true }

/-- A viewer sitting in `ConnectionPending`. -/
def pendingViewer : Viewer :=
  { state := StateVal.ConnectionPending, name := "alice", secret := none,
    system := { t := 0, data := 0 }, turn_indicator := "",
    sockNonblocking := true, hasBuffer := true }

/-- A viewer whose state field holds a value outside the `ViewerState`
enumeration. -/
def strangeViewer : Viewer :=
  { state := StateVal.Other 7, name := "alice", secret := none,
    system := { t := 0, data := 0 }, turn_indicator := "",
    sockNonblocking := false, hasBuffer := false }

/-- The single outgoing enqueue the client ever performs: its `Login`. -/
def loginPush (v : Viewer) : Act :=
  Act.pushMsg (Message.Login v.name v.secret ConnectionType.VIEWER)

/-- Shot info of a game-over broadcast that carries no winner; on it the
source's `msg.shot_info.winner.name` raises an attribute error. -/
def gameOverNoWinner : ShotInfo :=
  { player := "bob", game_over := true, winner := none }

/-- Run invariant for the single-Login property: the configured name and
secret never change, the trace holds no outgoing enqueue or exactly the one
`Login`, and while still waiting for the connection nothing has been
enqueued. -/
def c5Inv (v0 : Viewer) (rs : RunState) : Prop :=
  rs.viewer.name = v0.name ∧ rs.viewer.secret = v0.secret ∧
  (pushesOf rs.trace = [] ∨ pushesOf rs.trace = [loginPush v0]) ∧
  (rs.viewer.state = StateVal.WaitingForConnection → pushesOf rs.trace = [])

/-- Run invariant for unreachability of the fatal branch: the state value
stays inside the enumeration and the loop never crashes with
`NotImplementedError`. -/
def c8Inv (rs : RunState) : Prop :=
  knownState rs.viewer.state = true ∧
  rs.crashed ≠ some PyError.notImplementedUnknownState

/-- Iterating over a cons input list is one step followed by the rest. -/
theorem runTicks_cons (rs : RunState) (i : TickInput) (l : List TickInput) :
    runTicks rs (i :: l) = runTicks (stepRun rs i) l := rfl

/-- Once the task is removed or the tick crashed, a step changes nothing. -/
theorem stepRun_stuck {rs : RunState} (i : TickInput)
    (h : rs.closed = true ∨ rs.crashed.isSome = true) : stepRun rs i = rs := by
  rcases h with h | h
  · simp [stepRun, h]
  · simp [stepRun, h]

/-- Once the task is removed, no number of further ticks changes anything. -/
theorem runTicks_closed {rs : RunState} (h : rs.closed = true) :
    ∀ l : List TickInput, runTicks rs l = rs := by
  intro l
  induction l with
  | nil => rfl
  | cons i is ih =>
    rw [runTicks_cons, stepRun_stuck i (Or.inl h)]
    exact ih

/-- Exhaustive case analysis of a non-raising tick: the name and secret are
untouched; from `WaitingForConnection` the tick either leaves everything
unchanged or enqueues exactly the one `Login` and moves to
`ConnectionPending`; from `ConnectionPending` it stays or moves to `Viewing`
and enqueues nothing; from `Viewing` it stays in `Viewing` and enqueues
nothing. -/
theorem update_ok_cases {v : Viewer} {i : TickInput} {v' : Viewer} {a : List Act}
    {r : TaskResult} (h : v.update i = Except.ok (v', a, r)) :
    v'.name = v.name ∧ v'.secret = v.secret ∧
    ((v.state = StateVal.WaitingForConnection ∧
        ((v' = v ∧ a = []) ∨
         (v'.state = StateVal.ConnectionPending ∧
          a = [Act.pushMsg (Message.Login v.name v.secret ConnectionType.VIEWER)]))) ∨
     (v.state = StateVal.ConnectionPending ∧
        (v'.state = StateVal.ConnectionPending ∨ v'.state = StateVal.Viewing) ∧
        pushesOf a = []) ∨
     (v.state = StateVal.Viewing ∧ v'.state = StateVal.Viewing ∧ pushesOf a = [])) := by
  obtain ⟨st, nm, sec, sys, ti, nb, hb⟩ := v
  cases st
  case WaitingForConnection =>
    by_cases hc : i.connectOk
    all_goals simp [Viewer.update, hc] at h
    all_goals obtain ⟨h1, h2, h3⟩ := h
    all_goals subst h1 h2
    · exact ⟨rfl, rfl, Or.inl ⟨rfl, Or.inr ⟨rfl, rfl⟩⟩⟩
    · exact ⟨rfl, rfl, Or.inl ⟨rfl, Or.inl ⟨rfl, rfl⟩⟩⟩
  case ConnectionPending =>
    cases hm : i.msg with
    | none =>
      simp [Viewer.update, hm] at h
      obtain ⟨h1, h2, h3⟩ := h
      subst h1 h2
      exact ⟨rfl, rfl, Or.inr (Or.inl ⟨rfl, Or.inl rfl, rfl⟩)⟩
    | some m =>
      cases m
      all_goals simp [Viewer.update, hm] at h
      all_goals obtain ⟨h1, h2, h3⟩ := h
      all_goals subst h1 h2
      · exact ⟨rfl, rfl, Or.inr (Or.inl ⟨rfl, Or.inl rfl, rfl⟩)⟩
      · exact ⟨rfl, rfl, Or.inr (Or.inl ⟨rfl, Or.inr rfl, rfl⟩)⟩
      · exact ⟨rfl, rfl, Or.inr (Or.inl ⟨rfl, Or.inl rfl, rfl⟩)⟩
      · exact ⟨rfl, rfl, Or.inr (Or.inl ⟨rfl, Or.inl rfl, rfl⟩)⟩
      · exact ⟨rfl, rfl, Or.inr (Or.inl ⟨rfl, Or.inl rfl, rfl⟩)⟩
  case Viewing =>
    cases hm : i.msg with
    | none =>
      simp [Viewer.update, hm] at h
      obtain ⟨h1, h2, h3⟩ := h
      subst h1 h2
      exact ⟨rfl, rfl, Or.inr (Or.inr ⟨rfl, rfl, rfl⟩)⟩
    | some m =>
      cases m
      case Broadcast sys2 si sc =>
        by_cases hg : si.game_over
        · cases hw : si.winner with
          | none => simp [Viewer.update, hm, hg, hw] at h
          | some w =>
            simp [Viewer.update, hm, hg, hw] at h
            obtain ⟨h1, h2, h3⟩ := h
            subst h1 h2
            exact ⟨rfl, rfl, Or.inr (Or.inr ⟨rfl, rfl, rfl⟩)⟩
        · simp [Viewer.update, hm, hg] at h
          obtain ⟨h1, h2, h3⟩ := h
          subst h1 h2
          exact ⟨rfl, rfl, Or.inr (Or.inr ⟨rfl, rfl, rfl⟩)⟩
      all_goals simp [Viewer.update, hm] at h
      all_goals obtain ⟨h1, h2, h3⟩ := h
      all_goals subst h1 h2
      all_goals exact ⟨rfl, rfl, Or.inr (Or.inr ⟨rfl, rfl, rfl⟩)⟩
  case Other n =>
    simp [Viewer.update] at h

/-- A tick can only raise in two ways: `NotImplementedError` from a state
value outside the enumeration (viewer untouched), or the attribute error
from a game-over broadcast without a winner while `Viewing` — raised after
the snapshot and turn indicator were already replaced, so the carried viewer
differs from the input only in those two fields: its state, name and secret
are unchanged. -/
theorem update_error_cases {v : Viewer} {i : TickInput} {v' : Viewer}
    {e : PyError} (h : v.update i = Except.error (v', e)) :
    v'.name = v.name ∧ v'.secret = v.secret ∧ v'.state = v.state ∧
    (((∃ n, v.state = StateVal.Other n) ∧
        e = PyError.notImplementedUnknownState ∧ v' = v) ∨
     (v.state = StateVal.Viewing ∧ e = PyError.attributeErrorWinnerNone)) := by
  obtain ⟨st, nm, sec, sys, ti, nb, hb⟩ := v
  cases st
  case WaitingForConnection =>
    by_cases hc : i.connectOk
    all_goals simp [Viewer.update, hc] at h
  case ConnectionPending =>
    cases hm : i.msg with
    | none => simp [Viewer.update, hm] at h
    | some m =>
      cases m
      all_goals simp [Viewer.update, hm] at h
  case Viewing =>
    cases hm : i.msg with
    | none => simp [Viewer.update, hm] at h
    | some m =>
      cases m
      case Broadcast sys2 si sc =>
        by_cases hg : si.game_over
        · cases hw : si.winner with
          | none =>
            simp [Viewer.update, hm, hg, hw] at h
            obtain ⟨h1, h2⟩ := h
            subst h1
            exact ⟨rfl, rfl, rfl, Or.inr ⟨rfl, h2.symm⟩⟩
          | some w => simp [Viewer.update, hm, hg, hw] at h
        · simp [Viewer.update, hm, hg] at h
      all_goals simp [Viewer.update, hm] at h
  case Other n =>
    simp [Viewer.update] at h
    obtain ⟨h1, h2⟩ := h
    subst h1
    exact ⟨rfl, rfl, rfl, Or.inl ⟨⟨n, rfl⟩, h2.symm, rfl⟩⟩

/-- The only state movements one scheduler step can make: stay put, go from
`WaitingForConnection` to `ConnectionPending`, or go from
`ConnectionPending` to `Viewing`. -/
theorem stepRun_state_facts (rs : RunState) (i : TickInput) :
    (stepRun rs i).viewer.state = rs.viewer.state ∨
    (rs.viewer.state = StateVal.WaitingForConnection ∧
     (stepRun rs i).viewer.state = StateVal.ConnectionPending) ∨
    (rs.viewer.state = StateVal.ConnectionPending ∧
     (stepRun rs i).viewer.state = StateVal.Viewing) := by
  by_cases hstuck : (rs.closed || rs.crashed.isSome) = true
  · rw [stepRun, if_pos hstuck]
    exact Or.inl rfl
  · rw [stepRun, if_neg hstuck]
    cases hu : rs.viewer.update i with
    | error out =>
      obtain ⟨v', e⟩ := out
      exact Or.inl (update_error_cases hu).2.2.1
    | ok out =>
      obtain ⟨v', a, r⟩ := out
      have hm := update_ok_cases hu
      rcases hm.2.2 with ⟨hw, hsub⟩ | ⟨hp, hsub, -⟩ | ⟨hv, hsub, -⟩
      · rcases hsub with ⟨hv', -⟩ | ⟨hv', -⟩
        · exact Or.inl (by rw [hv'])
        · exact Or.inr (Or.inl ⟨hw, hv'⟩)
      · rcases hsub with hv' | hv'
        · exact Or.inl (by rw [hv', hp])
        · exact Or.inr (Or.inr ⟨hp, hv'⟩)
      · exact Or.inl (by rw [hsub, hv])

/-- `Viewing` is preserved by one scheduler step. -/
theorem stepRun_viewing {rs : RunState} (i : TickInput)
    (h : rs.viewer.state = StateVal.Viewing) :
    (stepRun rs i).viewer.state = StateVal.Viewing := by
  rcases stepRun_state_facts rs i with h1 | ⟨h1, -⟩ | ⟨h1, -⟩
  · rw [h1, h]
  · rw [h] at h1; cases h1
  · rw [h] at h1; cases h1

/-- `Viewing` is preserved by any number of scheduler steps. -/
theorem runTicks_viewing {rs : RunState} (h : rs.viewer.state = StateVal.Viewing) :
    ∀ l : List TickInput, (runTicks rs l).viewer.state = StateVal.Viewing := by
  intro l
  induction l generalizing rs with
  | nil => exact h
  | cons i is ih =>
    rw [runTicks_cons]
    exact ih (stepRun_viewing i h)

/-- One scheduler step never moves back into `WaitingForConnection`. -/
theorem stepRun_not_waiting {rs : RunState} (i : TickInput)
    (h : rs.viewer.state ≠ StateVal.WaitingForConnection) :
    (stepRun rs i).viewer.state ≠ StateVal.WaitingForConnection := by
  rcases stepRun_state_facts rs i with h1 | ⟨h1, h2⟩ | ⟨h1, h2⟩
  · rw [h1]; exact h
  · exact absurd h1 h
  · rw [h2]; intro hc; cases hc

/-- No number of scheduler steps moves back into `WaitingForConnection`. -/
theorem runTicks_not_waiting {rs : RunState}
    (h : rs.viewer.state ≠ StateVal.WaitingForConnection) :
    ∀ l : List TickInput,
      (runTicks rs l).viewer.state ≠ StateVal.WaitingForConnection := by
  intro l
  induction l generalizing rs with
  | nil => exact h
  | cons i is ih =>
    rw [runTicks_cons]
    exact ih (stepRun_not_waiting i h)

/-- The single-Login invariant is preserved by one scheduler step. -/
theorem c5Inv_step {v0 : Viewer} {rs : RunState} (i : TickInput)
    (h : c5Inv v0 rs) : c5Inv v0 (stepRun rs i) := by
  by_cases hstuck : (rs.closed || rs.crashed.isSome) = true
  · rw [stepRun, if_pos hstuck]; exact h
  · rw [stepRun, if_neg hstuck]
    cases hu : rs.viewer.update i with
    | error out =>
      obtain ⟨v', e⟩ := out
      obtain ⟨hn, hs, hst, -⟩ := update_error_cases hu
      obtain ⟨h1, h2, h3, h4⟩ := h
      refine ⟨by rw [hn, h1], by rw [hs, h2], h3, ?_⟩
      intro hc
      rw [hst] at hc
      exact h4 hc
    | ok out =>
      obtain ⟨v', a, r⟩ := out
      obtain ⟨hn, hs, hfacts⟩ := update_ok_cases hu
      obtain ⟨h1, h2, h3, h4⟩ := h
      have hname : v'.name = v0.name := by rw [hn, h1]
      have hsec : v'.secret = v0.secret := by rw [hs, h2]
      have happ : pushesOf (rs.trace ++ a) = pushesOf rs.trace ++ pushesOf a :=
        List.filter_append _ _
      rcases hfacts with ⟨hw, hsub⟩ | ⟨hp, hsub, hpa⟩ | ⟨hv, hsub, hpa⟩
      · rcases hsub with ⟨hv', ha⟩ | ⟨hv', ha⟩
        · subst ha
          refine ⟨hname, hsec, ?_, ?_⟩
          · simpa [happ, pushesOf] using h3
          · intro _
            simpa [happ, pushesOf] using h4 hw
        · subst ha
          have hzero : pushesOf rs.trace = [] := h4 hw
          refine ⟨hname, hsec, Or.inr ?_, ?_⟩
          · rw [happ, hzero]
            simp [pushesOf, isPush, loginPush, h1, h2]
          · intro hc
            rw [hv'] at hc
            cases hc
      · refine ⟨hname, hsec, ?_, ?_⟩
        · rw [happ, hpa, List.append_nil]
          exact h3
        · intro hc
          rcases hsub with hv' | hv' <;> rw [hv'] at hc <;> cases hc
      · refine ⟨hname, hsec, ?_, ?_⟩
        · rw [happ, hpa, List.append_nil]
          exact h3
        · intro hc
          rw [hsub] at hc
          cases hc

/-- The single-Login invariant is preserved by any number of steps. -/
theorem c5Inv_run {v0 : Viewer} {rs : RunState} (h : c5Inv v0 rs) :
    ∀ l : List TickInput, c5Inv v0 (runTicks rs l) := by
  intro l
  induction l generalizing rs with
  | nil => exact h
  | cons i is ih =>
    rw [runTicks_cons]
    exact ih (c5Inv_step i h)

/-- The known-state invariant is preserved by one scheduler step. -/
theorem c8Inv_step {rs : RunState} (i : TickInput) (h : c8Inv rs) :
    c8Inv (stepRun rs i) := by
  by_cases hstuck : (rs.closed || rs.crashed.isSome) = true
  · rw [stepRun, if_pos hstuck]; exact h
  · rw [stepRun, if_neg hstuck]
    cases hu : rs.viewer.update i with
    | error out =>
      obtain ⟨v', e⟩ := out
      obtain ⟨-, -, hst, hclass⟩ := update_error_cases hu
      constructor
      · show knownState v'.state = true
        rw [hst]
        exact h.1
      · rcases hclass with ⟨⟨n, hn⟩, -, -⟩ | ⟨-, he⟩
        · have := h.1
          rw [hn] at this
          cases this
        · subst he
          intro hc
          cases hc
    | ok out =>
      obtain ⟨v', a, r⟩ := out
      obtain ⟨-, -, hfacts⟩ := update_ok_cases hu
      refine ⟨?_, h.2⟩
      rcases hfacts with ⟨hw, hsub⟩ | ⟨hp, hsub, -⟩ | ⟨hv, hsub, -⟩
      · rcases hsub with ⟨hv', -⟩ | ⟨hv', -⟩
        · rw [hv']; exact h.1
        · show knownState v'.state = true
          rw [hv']; rfl
      · show knownState v'.state = true
        rcases hsub with hv' | hv' <;> rw [hv'] <;> rfl
      · show knownState v'.state = true
        rw [hsub]; rfl

/-- The known-state invariant is preserved by any number of steps. -/
theorem c8Inv_run {rs : RunState} (h : c8Inv rs) :
    ∀ l : List TickInput, c8Inv (runTicks rs l) := by
  intro l
  induction l generalizing rs with
  | nil => exact h
  | cons i is ih =>
    rw [runTicks_cons]
    exact ih (c8Inv_step i h)

/-- Claim C1 (amended): in `ConnectionPending`, receiving `LoginSuccess`
(which can only happen before any `LoginFailed` or `ConnectionClosed` has
been processed, since those remove the tick task) logs the returned secret —
the session's stored secret is unchanged, as only the `state` field is
updated — and transitions to `Viewing`; and `Viewing` is absorbing under
arbitrary further input, so the transition to `Viewing` happens exactly once
and the session never returns to `ConnectionPending`. -/
theorem c1_theorem :
    (∀ (v : Viewer) (i : TickInput) (s : Nat),
       v.state = StateVal.ConnectionPending →
       i.msg = some (Message.LoginSuccess s) →
       v.update i = Except.ok ({ v with state := StateVal.Viewing },
         [Act.logInfo ("Connected! Secret: " ++ toString s)], TaskResult.again)) ∧
    (∀ (rs : RunState) (l : List TickInput),
       rs.viewer.state = StateVal.Viewing →
       (runTicks rs l).viewer.state = StateVal.Viewing) := by
  constructor
  · intro v i s hv hm
    simp [Viewer.update, hv, hm]
  · intro rs l h
    exact runTicks_viewing h l

/-- Claim C1, witness: a concrete `LoginSuccess` tick in `ConnectionPending`
evaluated through the theorem. -/
theorem c1_witness :
    pendingViewer.update { connectOk := false, msg := some (Message.LoginSuccess 42) } =
      Except.ok ({ pendingViewer with state := StateVal.Viewing },
        [Act.logInfo ("Connected! Secret: " ++ toString (42 : Nat))], TaskResult.again) :=
  c1_theorem.1 pendingViewer { connectOk := false, msg := some (Message.LoginSuccess 42) }
    42 rfl rfl

/-- Claim C1, counterexample to "records the returned secret into the
session": a viewer with no stored secret receives `LoginSuccess` with secret
42; the tick only logs the secret, and the resulting session still stores
`none`, not the returned 42. -/
theorem c1_counterexample :
    pendingViewer.update { connectOk := false, msg := some (Message.LoginSuccess 42) } =
      Except.ok ({ pendingViewer with state := StateVal.Viewing },
        [Act.logInfo ("Connected! Secret: " ++ toString (42 : Nat))], TaskResult.again) ∧
    ({ pendingViewer with state := StateVal.Viewing }).secret = none ∧
    (none : Option Nat) ≠ some 42 :=
  ⟨rfl, rfl, by decide⟩

/-- Claim C2 (amended): in `WaitingForConnection` every tick attempts a
connect (with the socket still in its default blocking mode — it is switched
to non-blocking only after success); a refused attempt leaves the viewer
completely unchanged with no action at all (in particular no message), and
any number of refused ticks leaves the whole run state unchanged (unbounded
silent retry); a successful attempt switches the socket to non-blocking,
constructs the buffer, enqueues exactly one `Login` with the configured
name, optional secret and viewer connection kind, and moves to
`ConnectionPending`. -/
theorem c2_theorem (v : Viewer) (i : TickInput)
    (h : v.state = StateVal.WaitingForConnection) :
    (i.connectOk = false → v.update i = Except.ok (v, [], TaskResult.again)) ∧
    (i.connectOk = true →
       v.update i = Except.ok
         ({ v with sockNonblocking := true, hasBuffer := true,
                   state := StateVal.ConnectionPending },
          [Act.pushMsg (Message.Login v.name v.secret ConnectionType.VIEWER)],
          TaskResult.again)) ∧
    (∀ n : Nat,
       runTicks (initRun v) (List.replicate n { connectOk := false, msg := none }) =
         initRun v) := by
  refine ⟨?_, ?_, ?_⟩
  · intro hc
    simp [Viewer.update, h, hc]
  · intro hc
    simp [Viewer.update, h, hc]
  · intro n
    induction n with
    | zero => rfl
    | succ k ih =>
      rw [List.replicate_succ, runTicks_cons]
      have hstep : stepRun (initRun v) { connectOk := false, msg := none } = initRun v := by
        simp [stepRun, initRun, Viewer.update, h, TaskResult.isDone]
      rw [hstep]
      exact ih

/-- Claim C2, witness: a successful connect tick on the freshly initialized
viewer, evaluated through the theorem. -/
theorem c2_witness :
    (initialViewer "alice" none).update { connectOk := true, msg := none } =
      Except.ok ({ initialViewer "alice" none with
                   sockNonblocking := true, hasBuffer := true,
                   state := StateVal.ConnectionPending },
        [Act.pushMsg (Message.Login "alice" none ConnectionType.VIEWER)],
        TaskResult.again) :=
  (c2_theorem (initialViewer "alice" none) { connectOk := true, msg := none } rfl).2.1 rfl

/-- Claim C2, counterexample to "every tick attempts a non-blocking
connect": on the freshly initialized viewer the connect attempt is made
while the socket is still in blocking mode (`sockNonblocking = false`; the
source calls `setblocking(False)` only after `connect` returns), and the
switch to non-blocking is first observable in the result of a successful
tick. -/
theorem c2_counterexample :
    (initialViewer "alice" none).sockNonblocking = false ∧
    (initialViewer "alice" none).state = StateVal.WaitingForConnection ∧
    (initialViewer "alice" none).update { connectOk := false, msg := none } =
      Except.ok (initialViewer "alice" none, [], TaskResult.again) ∧
    ((initialViewer "alice" none).update { connectOk := true, msg := none }).map
        (fun out => out.1.sockNonblocking) = Except.ok true :=
  ⟨rfl, rfl, rfl, rfl⟩

/-- Claim C3 (amended): for scenario C's broadcast (clock 5.0, active bob,
game over, winner bob, scores alice 2 then bob 5) processed in `Viewing`,
the emitted triggers are a game-over with winner bob and wait 5.0, a
score-update carrying the pairs in insertion order with wait 5.0, and a
shot-animation; the score-update and game-over fire at offset 5.0 after
registration, and the shot-animation at the fixed offset 1.5 after
registration (not 6.5). -/
theorem c3_theorem :
    viewingViewer.update { connectOk := false, msg := some scenarioBroadcast } =
      Except.ok ({ viewingViewer with
                   system := scenarioSystem,
                   turn_indicator := "Active player: " ++ "bob".toUpper },
        [Act.send (MessengerEvent.game_over "bob" 5),
         Act.send (MessengerEvent.update_score scenarioScores 5),
         Act.send MessengerEvent.animate_shot],
        TaskResult.again) ∧
    eventDelay (MessengerEvent.update_score scenarioScores 5) = 5 ∧
    eventDelay (MessengerEvent.game_over "bob" 5) = 5 ∧
    eventDelay MessengerEvent.animate_shot = (3 : Rat) / 2 :=
  ⟨rfl, rfl, rfl, rfl⟩

/-- Claim C3, counterexample to "shot-animation at offset approximately
6.5": the three triggers emitted for scenario C's broadcast fire at delays
5.0, 5.0 and 1.5 after registration; no trigger fires at 6.5, and the
shot-animation delay 1.5 is nowhere near 6.5 (it is below 6, and precedes
the other two triggers rather than following them by 1.5). -/
theorem c3_counterexample :
    viewingViewer.update { connectOk := false, msg := some scenarioBroadcast } =
      Except.ok ({ viewingViewer with
                   system := scenarioSystem,
                   turn_indicator := "Active player: " ++ "bob".toUpper },
        [Act.send (MessengerEvent.game_over "bob" 5),
         Act.send (MessengerEvent.update_score scenarioScores 5),
         Act.send MessengerEvent.animate_shot],
        TaskResult.again) ∧
    sendDelays
      [Act.send (MessengerEvent.game_over "bob" 5),
       Act.send (MessengerEvent.update_score scenarioScores 5),
       Act.send MessengerEvent.animate_shot] = [5, 5, (3 : Rat) / 2] ∧
    ((13 : Rat) / 2) ∉ ([5, 5, (3 : Rat) / 2] : List Rat) ∧
    ¬ (6 ≤ (3 : Rat) / 2) :=
  ⟨rfl, rfl, by norm_num, by norm_num⟩

/-- Claim C4 (amended): in `Viewing`, every `Broadcast` replaces the
retained snapshot exactly once (the single `system` field is set to the new
snapshot) and updates the turn indicator from the shot info's active player;
when the game-over flag, if set, comes with a winner, the tick then emits the
score-update trigger carrying the scores exactly as given (insertion order
preserved), the game-over trigger exactly when the flag is set, and the
shot-animation trigger, and leaves the state `Viewing` (only `system` and
`turn_indicator` change); a game-over `Broadcast` without a winner performs
the same snapshot replacement and indicator update but then raises an
attribute error before any trigger is scheduled, crashing the tick. -/
theorem c4_theorem (v : Viewer) (sys : PSystem) (si : ShotInfo)
    (scores : List (String × Int)) (i : TickInput)
    (hv : v.state = StateVal.Viewing)
    (hm : i.msg = some (Message.Broadcast sys si scores)) :
    (si.game_over = false →
       v.update i = Except.ok
         ({ v with system := sys,
                   turn_indicator := "Active player: " ++ si.player.toUpper },
          [Act.send (MessengerEvent.update_score scores sys.t),
           Act.send MessengerEvent.animate_shot],
          TaskResult.again)) ∧
    (∀ w : String, si.game_over = true → si.winner = some w →
       v.update i = Except.ok
         ({ v with system := sys,
                   turn_indicator := "Active player: " ++ si.player.toUpper },
          [Act.send (MessengerEvent.game_over w sys.t),
           Act.send (MessengerEvent.update_score scores sys.t),
           Act.send MessengerEvent.animate_shot],
          TaskResult.again)) ∧
    (si.game_over = true → si.winner = none →
       v.update i = Except.error
         ({ v with system := sys,
                   turn_indicator := "Active player: " ++ si.player.toUpper },
          PyError.attributeErrorWinnerNone)) := by
  refine ⟨?_, ?_, ?_⟩
  · intro hg
    simp [Viewer.update, hv, hm, hg]
  · intro w hg hw
    simp [Viewer.update, hv, hm, hg, hw]
  · intro hg hw
    simp [Viewer.update, hv, hm, hg, hw]

/-- Claim C4, witness: scenario C's broadcast evaluated through the
theorem. -/
theorem c4_witness :
    viewingViewer.update { connectOk := false, msg := some scenarioBroadcast } =
      Except.ok ({ viewingViewer with
                   system := scenarioSystem,
                   turn_indicator := "Active player: " ++ scenarioShotInfo.player.toUpper },
        [Act.send (MessengerEvent.game_over "bob" scenarioSystem.t),
         Act.send (MessengerEvent.update_score scenarioScores scenarioSystem.t),
         Act.send MessengerEvent.animate_shot],
        TaskResult.again) :=
  (c4_theorem viewingViewer scenarioSystem scenarioShotInfo scenarioScores
    { connectOk := false, msg := some scenarioBroadcast } rfl rfl).2.1 "bob" rfl rfl

/-- Claim C4, counterexample to the unrestricted claim: a game-over
`Broadcast` carrying no winner makes the tick raise an attribute error
(`winner.name` on an absent winner) at source line 129 — after lines 125 to
127 have already discarded the old snapshot, updated the turn indicator and
adopted the new snapshot, which the carried viewer shows — so on this input
no trigger at all is scheduled (no score-update in particular) and
processing does not continue: the tick crashes. -/
theorem c4_counterexample :
    viewingViewer.update
      { connectOk := false,
        msg := some (Message.Broadcast scenarioSystem gameOverNoWinner scenarioScores) } =
      Except.error
        ({ viewingViewer with
           system := scenarioSystem,
           turn_indicator := "Active player: " ++ "bob".toUpper },
         PyError.attributeErrorWinnerNone) ∧
    ({ viewingViewer with
       system := scenarioSystem,
       turn_indicator := "Active player: " ++ "bob".toUpper } : Viewer).system =
      scenarioSystem ∧
    viewingViewer.system ≠ scenarioSystem :=
  ⟨rfl, rfl, by decide⟩

/-- Claim C5: along any run of ticks from the freshly initialized viewer,
the outgoing enqueues of the whole trace are either none or exactly the one
`Login` carrying the configured name, secret and viewer kind — so at most
one `Login` is ever enqueued, and since it is the only outgoing message of
the whole run it precedes every other outgoing message; and from any state
other than `WaitingForConnection`, no input sequence ever brings the state
back to `WaitingForConnection`. -/
theorem c5_theorem :
    (∀ (v0 : Viewer) (l : List TickInput),
       v0.state = StateVal.WaitingForConnection →
       (pushesOf (runTicks (initRun v0) l).trace = [] ∨
        pushesOf (runTicks (initRun v0) l).trace =
          [Act.pushMsg (Message.Login v0.name v0.secret ConnectionType.VIEWER)])) ∧
    (∀ (rs : RunState) (l : List TickInput),
       rs.viewer.state ≠ StateVal.WaitingForConnection →
       (runTicks rs l).viewer.state ≠ StateVal.WaitingForConnection) := by
  constructor
  · intro v0 l _
    have hinit : c5Inv v0 (initRun v0) := ⟨rfl, rfl, Or.inl rfl, fun _ => rfl⟩
    exact (c5Inv_run hinit l).2.2.1
  · intro rs l h
    exact runTicks_not_waiting h l

/-- Claim C5, witness: a one-tick run with a successful connect, evaluated
through the theorem. -/
theorem c5_witness :
    pushesOf (runTicks (initRun (initialViewer "alice" none))
        [{ connectOk := true, msg := none }]).trace = [] ∨
    pushesOf (runTicks (initRun (initialViewer "alice" none))
        [{ connectOk := true, msg := none }]).trace =
      [Act.pushMsg (Message.Login "alice" none ConnectionType.VIEWER)] :=
  c5_theorem.1 (initialViewer "alice" none) [{ connectOk := true, msg := none }] rfl

/-- Claim C6: `LoginFailed` in `ConnectionPending`, and `ConnectionClosed`
in `ConnectionPending` or `Viewing`, are logged and return `task.done`,
which removes the tick task — the implicit terminal `Closed` state, modelled
by `RunState.closed`; and once the loop is closed, any number of further
scheduler steps changes nothing at all: no reconnection is ever attempted,
the process side is unaffected (non-fatal). -/
theorem c6_theorem :
    (∀ (v : Viewer) (i : TickInput) (reason : String),
       v.state = StateVal.ConnectionPending →
       i.msg = some (Message.LoginFailed reason) →
       v.update i = Except.ok
         (v, [Act.logInfo ("Failed to connect! " ++ reason)], TaskResult.done)) ∧
    (∀ (v : Viewer) (i : TickInput),
       v.state = StateVal.ConnectionPending →
       i.msg = some Message.ConnectionClosed →
       v.update i = Except.ok
         (v, [Act.logInfo "Server disconnected!"], TaskResult.done)) ∧
    (∀ (v : Viewer) (i : TickInput),
       v.state = StateVal.Viewing →
       i.msg = some Message.ConnectionClosed →
       v.update i = Except.ok
         (v, [Act.logInfo "Server disconnected!"], TaskResult.done)) ∧
    (∀ (rs : RunState) (l : List TickInput),
       rs.closed = true → runTicks rs l = rs) := by
  refine ⟨?_, ?_, ?_, ?_⟩
  · intro v i reason hv hm
    simp [Viewer.update, hv, hm]
  · intro v i hv hm
    simp [Viewer.update, hv, hm]
  · intro v i hv hm
    simp [Viewer.update, hv, hm]
  · intro rs l h
    exact runTicks_closed h l

/-- Claim C6, witness: a concrete `LoginFailed` tick in `ConnectionPending`
evaluated through the theorem. -/
theorem c6_witness :
    pendingViewer.update { connectOk := false, msg := some (Message.LoginFailed "bad secret") } =
      Except.ok (pendingViewer,
        [Act.logInfo ("Failed to connect! " ++ "bad secret")], TaskResult.done) :=
  c6_theorem.1 pendingViewer
    { connectOk := false, msg := some (Message.LoginFailed "bad secret") } "bad secret" rfl rfl

/-- Claim C7: any message variant outside the ones enumerated for the
current state (`Login` or `Broadcast` in `ConnectionPending`; `Login`,
`LoginSuccess` or `LoginFailed` in `Viewing`) produces exactly one warning
log, leaves the viewer — state and every other session field — unchanged,
and returns `task.again` so processing continues on the next tick. -/
theorem c7_theorem :
    (∀ (v : Viewer) (i : TickInput) (m : Message),
       v.state = StateVal.ConnectionPending →
       i.msg = some m → unexpectedInPending m = true →
       v.update i = Except.ok
         (v, [Act.logWarning "Unexpected message!"], TaskResult.again)) ∧
    (∀ (v : Viewer) (i : TickInput) (m : Message),
       v.state = StateVal.Viewing →
       i.msg = some m → unexpectedInViewing m = true →
       v.update i = Except.ok
         (v, [Act.logWarning "Unexpected message!"], TaskResult.again)) := by
  constructor
  · intro v i m hv hm hu
    cases m
    all_goals simp [unexpectedInPending] at hu
    all_goals simp [Viewer.update, hv, hm]
  · intro v i m hv hm hu
    cases m
    all_goals simp [unexpectedInViewing] at hu
    all_goals simp [Viewer.update, hv, hm]

/-- Claim C7, witness: a `Broadcast` arriving while still in
`ConnectionPending`, evaluated through the theorem. -/
theorem c7_witness :
    pendingViewer.update { connectOk := false, msg := some scenarioBroadcast } =
      Except.ok (pendingViewer, [Act.logWarning "Unexpected message!"], TaskResult.again) :=
  c7_theorem.1 pendingViewer { connectOk := false, msg := some scenarioBroadcast }
    scenarioBroadcast rfl rfl rfl

/-- Claim C8: whenever the state field holds a value outside the enumerated
set, the tick raises `NotImplementedError` regardless of input, with the
viewer untouched at the raise point (fail fast); and along every run from
`WaitingForConnection` the state stays inside the enumerated set and the
loop never crashes with `NotImplementedError` — the fatal branch is
unreachable under the machine's own transitions. -/
theorem c8_theorem :
    (∀ (v : Viewer) (i : TickInput) (n : Nat),
       v.state = StateVal.Other n →
       v.update i = Except.error (v, PyError.notImplementedUnknownState)) ∧
    (∀ (v0 : Viewer) (l : List TickInput),
       v0.state = StateVal.WaitingForConnection →
       knownState (runTicks (initRun v0) l).viewer.state = true ∧
       (runTicks (initRun v0) l).crashed ≠ some PyError.notImplementedUnknownState) := by
  constructor
  · intro v i n hv
    simp [Viewer.update, hv]
  · intro v0 l h0
    have hinit : c8Inv (initRun v0) := by
      constructor
      · show knownState v0.state = true
        rw [h0]
        rfl
      · intro hc
        cases hc
    exact c8Inv_run hinit l

/-- Claim C8, witness: a tick on a viewer whose state holds a value outside
the enumeration, evaluated through the theorem. -/
theorem c8_witness :
    strangeViewer.update { connectOk := false, msg := none } =
      Except.error (strangeViewer, PyError.notImplementedUnknownState) :=
  c8_theorem.1 strangeViewer { connectOk := false, msg := none } 7 rfl

/-- Claim C10: the `update_score` handler raises an index error on every
scores mapping with fewer than two entries, and on a mapping with two or
more entries it formats exactly the first two (player, score) pairs in
insertion order, ignoring any further entries. -/
theorem c10_theorem :
    (∀ (scores : List (String × Int)) (wait : Rat),
       scores.length < 2 →
       Viewer.update_score scores wait = Except.error PyError.indexError) ∧
    (∀ (a b : String × Int) (rest : List (String × Int)) (wait : Rat),
       Viewer.update_score (a :: b :: rest) wait =
         Except.ok (a.1.toUpper ++ ": " ++ toString a.2 ++ " vs. " ++
           b.1.toUpper ++ ": " ++ toString b.2)) := by
  constructor
  · intro scores wait h
    match scores with
    | [] => rfl
    | [x] => rfl
    | a :: b :: t =>
      simp only [List.length_cons] at h
      omega
  · intro a b rest wait
    simp [Viewer.update_score]

/-- Claim C10, witness: the empty mapping and scenario C's two-entry
mapping, evaluated through the theorem. -/
theorem c10_witness :
    Viewer.update_score [] 0 = Except.error PyError.indexError ∧
    Viewer.update_score scenarioScores 5 =
      Except.ok ("alice".toUpper ++ ": " ++ toString (2 : Int) ++ " vs. " ++
        "bob".toUpper ++ ": " ++ toString (5 : Int)) :=
  ⟨c10_theorem.1 [] 0 (by decide), c10_theorem.2 ("alice", 2) ("bob", 5) [] 5⟩
